import Mathlib

/-!
Shallow embedding of the Memex incremental backup core:
the change classifier (src/backup/background/backend/utils.ts) and the
simple HTTP backup backend (SimpleHttpBackend: storeObject, _writeToPath,
deleteObject, backupChanges, listObjects).

JavaScript values that matter to the classifier are modelled by `Value`
(undefined, null, or a string payload standing for any non-null datum,
including raw blobs and their encoded forms).  A structured record payload
is an insertion-ordered association list of fields, as a JS object is.
The injected async blob encoder `encodeBlob` is a parameter
`enc : Value → Option Value`; `none` models a thrown encoding error
(which the source catches, reports to telemetry, and swallows).
Network transport (`fetch`) is a parameter from request path and body to
either a rejection (`Except.error`, carrying the rejection message) or an
HTTP response; an HTTP response with a non-success status still resolves,
exactly as `fetch` does.
-/

inductive Value where
  | undefined : Value
  | vnull : Value
  | vstr : String → Value
deriving DecidableEq, Repr

/-- JS loose `!= null` check: false exactly for `undefined` and `null`. -/
def isNonNull : Value → Bool
  | Value.undefined => false
  | Value.vnull => false
  | Value.vstr _ => true

/-- A JS object payload: insertion-ordered field list. -/
abbrev Obj := List (String × Value)

/-- Field read `o.f`: first binding wins; absent fields read as `undefined`. -/
def objGet : Obj → String → Value
  | [], _ => Value.undefined
  | (k0, v0) :: rest, k => if k0 = k then v0 else objGet rest k

/-- Field write `o.f = v`: update the existing binding in place, else append. -/
def objSet : Obj → String → Value → Obj
  | [], k, v => [(k, v)]
  | (k0, v0) :: rest, k, v =>
    if k0 = k then (k0, v) :: rest else (k0, v0) :: objSet rest k v

/-- One local mutation event (`ObjectChange` in the source). `object` is
`none` when the source record's `object` is null (e.g. delete records). -/
structure ObjectChange where
  collection : String
  objectPk : String
  object : Option Obj
  changeType : String
deriving DecidableEq, Repr

/-- An extracted binary payload (`images.push({...})` in
`separateDataFromImageChanges`). -/
structure ExtractedImage where
  collection : String
  pk : String
  type : String
  data : Value
deriving DecidableEq, Repr

/-- First block of `_prepareBackupChangeForStorage`: for collection
"pages" with a non-null `screenshot`, try to encode it (success puts the
encoding under the `screenshot` key of the images object, failure is
swallowed), then unconditionally clear the field with
`change.object.screenshot = undefined`. -/
def pagesStep (enc : Value → Option Value) (change : ObjectChange) :
    ObjectChange × List (String × Value) :=
  match change.object with
  | some obj =>
    if change.collection == "pages" && isNonNull (objGet obj "screenshot") then
      ({ change with object := some (objSet obj "screenshot" Value.undefined) },
       match enc (objGet obj "screenshot") with
       | some e => [("screenshot", e)]
       | none => [])
    else (change, [])
  | none => (change, [])

/-- Second block of `_prepareBackupChangeForStorage`: for collection
"favIcons" with a non-null `favIcon`, try to encode it; on success the
field is replaced in place, on failure the assignment never runs and the
field keeps its original value.  No image is ever produced here. -/
def favIconsStep (enc : Value → Option Value) (change : ObjectChange) :
    ObjectChange :=
  match change.object with
  | some obj =>
    if change.collection == "favIcons" && isNonNull (objGet obj "favIcon") then
      match enc (objGet obj "favIcon") with
      | some e => { change with object := some (objSet obj "favIcon" e) }
      | none => change
    else change
  | none => change

/-- `_prepareBackupChangeForStorage`: both blocks run in sequence on the
same record; the returned images object only ever gains entries in the
pages block. -/
def _prepareBackupChangeForStorage (enc : Value → Option Value)
    (change : ObjectChange) : ObjectChange × List (String × Value) :=
  let p := pagesStep enc change
  (favIconsStep enc p.1, p.2)

/-- The structured-record component of classification of one record. -/
def prep1 (enc : Value → Option Value) (c : ObjectChange) : ObjectChange :=
  (_prepareBackupChangeForStorage enc c).1

/-- The `ExtractedImage`s pushed for one record: one per entry of its
images object, tagged with the record's collection and primary key. -/
def recordImages (enc : Value → Option Value) (c : ObjectChange) :
    List ExtractedImage :=
  (_prepareBackupChangeForStorage enc c).2.map fun ti =>
    { collection := c.collection, pk := c.objectPk, type := ti.1, data := ti.2 }

/-- `separateDataFromImageChanges`: classify every record in order,
accumulating images; the changes array itself is returned (mutated in
place in the source, so record mutations are visible in it). -/
def separateDataFromImageChanges (enc : Value → Option Value) :
    List ObjectChange → List ObjectChange × List ExtractedImage
  | [] => ([], [])
  | c :: cs =>
    let firstImages := recordImages enc c
    let rest := separateDataFromImageChanges enc cs
    (prep1 enc c :: rest.1, firstImages ++ rest.2)

/-- `shouldWriteImages(images, storeBlobs)`: `storeBlobs && !!images.length`. -/
def shouldWriteImages (images : List ExtractedImage) (storeBlobs : Bool) :
    Bool :=
  storeBlobs && images.length != 0

example :
    separateDataFromImageChanges (fun v => some v)
      [{ collection := "pages", objectPk := "p",
         object := some [("screenshot", Value.vstr "s")], changeType := "create" }]
    = ([{ collection := "pages", objectPk := "p",
          object := some [("screenshot", Value.undefined)], changeType := "create" }],
       [{ collection := "pages", pk := "p", type := "screenshot",
          data := Value.vstr "s" }]) := by decide

/-! ### Serialization (JSON.stringify as used by the backend)

A deterministic rendering of the values the backend serializes.  The
4-space pretty printing argument of `JSON.stringify(obj, null, 4)` is not
reproduced (the claims only depend on which data is serialized where, not
on whitespace); `undefined`-valued fields are dropped, as JSON.stringify
drops them. -/

def jsonEscapeChar (c : Char) : String :=
  if c = '"' then "\\\""
  else if c = '\\' then "\\\\"
  else if c = '\n' then "\\n"
  else if c = '\r' then "\\r"
  else if c = '\t' then "\\t"
  else c.toString

def jsonQuote (s : String) : String :=
  "\"" ++ String.join (s.data.map jsonEscapeChar) ++ "\""

def Value.toJsonOpt : Value → Option String
  | Value.undefined => none
  | Value.vnull => some "null"
  | Value.vstr s => some (jsonQuote s)

def serializeObj (o : Obj) : String :=
  "\x7b" ++ String.intercalate ","
    (o.filterMap fun kv =>
      (Value.toJsonOpt kv.2).map fun j => jsonQuote kv.1 ++ ":" ++ j)
    ++ "\x7d"

def serializeChange (c : ObjectChange) : String :=
  "\x7b" ++ jsonQuote "collection" ++ ":" ++ jsonQuote c.collection ++ ","
    ++ jsonQuote "objectPk" ++ ":" ++ jsonQuote c.objectPk ++ ","
    ++ jsonQuote "object" ++ ":"
    ++ (match c.object with
        | none => "null"
        | some o => serializeObj o) ++ ","
    ++ jsonQuote "changeType" ++ ":" ++ jsonQuote c.changeType ++ "\x7d"

def serializeImage (im : ExtractedImage) : String :=
  "\x7b" ++ jsonQuote "collection" ++ ":" ++ jsonQuote im.collection ++ ","
    ++ jsonQuote "pk" ++ ":" ++ jsonQuote im.pk ++ ","
    ++ jsonQuote "type" ++ ":" ++ jsonQuote im.type ++ ","
    ++ jsonQuote "data"
    ++ ":" ++ ((Value.toJsonOpt im.data).getD "null") ++ "\x7d"

/-- Body of the changes object: `stringify({version, changes})`. -/
def serializeChangeSet (version : Nat) (changes : List ObjectChange) : String :=
  "\x7b" ++ jsonQuote "version" ++ ":" ++ toString version ++ ","
    ++ jsonQuote "changes" ++ ":["
    ++ String.intercalate "," (changes.map serializeChange) ++ "]\x7d"

/-- Body of the images object: `stringify({version, images})`. -/
def serializeImages (version : Nat) (images : List ExtractedImage) : String :=
  "\x7b" ++ jsonQuote "version" ++ ":" ++ toString version ++ ","
    ++ jsonQuote "images" ++ ":["
    ++ String.intercalate "," (images.map serializeImage) ++ "]\x7d"

/-! ### encodeURIComponent (ECMAScript builtin used by storeObject) -/

/-- The characters encodeURIComponent leaves unescaped:
`A–Z a–z 0–9 - _ . ! ~ * ' ( )` (the apostrophe is tested by code point). -/
def isUnreservedURI (c : Char) : Bool :=
  (('A' ≤ c && c ≤ 'Z') || ('a' ≤ c && c ≤ 'z') || ('0' ≤ c && c ≤ '9')
   || c = '-' || c = '_' || c = '.' || c = '!' || c = '~' || c = '*'
   || c.toNat == 39 || c = '(' || c = ')')

/-- UTF-8 bytes of one Unicode scalar value. -/
def utf8Bytes (n : Nat) : List Nat :=
  if n < 0x80 then [n]
  else if n < 0x800 then
    [0xC0 ||| (n >>> 6), 0x80 ||| (n &&& 0x3F)]
  else if n < 0x10000 then
    [0xE0 ||| (n >>> 12), 0x80 ||| ((n >>> 6) &&& 0x3F), 0x80 ||| (n &&& 0x3F)]
  else
    [0xF0 ||| (n >>> 18), 0x80 ||| ((n >>> 12) &&& 0x3F),
     0x80 ||| ((n >>> 6) &&& 0x3F), 0x80 ||| (n &&& 0x3F)]

/-- Uppercase hex digit. -/
def hexDigitChar (n : Nat) : Char :=
  if n < 10 then Char.ofNat (48 + n) else Char.ofNat (55 + n)

def percentByte (b : Nat) : String :=
  "%" ++ (hexDigitChar (b / 16)).toString ++ (hexDigitChar (b % 16)).toString

def encodeURIComponent (s : String) : String :=
  String.join (s.data.map fun c =>
    if isUnreservedURI c then c.toString
    else String.join ((utf8Bytes c.toNat).map percentByte))

example : encodeURIComponent "a/b c" = "a%2Fb%20c" := by decide

/-! ### SimpleHttpBackend -/

/-- An HTTP response as seen through fetch: status code and body text. -/
structure Response where
  status : Nat
  body : String
deriving DecidableEq, Repr

/-- `response.ok`: status in the inclusive range 200–299. -/
def Response.ok (r : Response) : Bool :=
  200 ≤ r.status && r.status ≤ 299

/-- The PUT transport: from request path and body to a fetch outcome.
`Except.error` is a rejected fetch promise (network failure); `Except.ok`
is any HTTP response, success or not. -/
abbrev Transport := String → String → Except String Response

/-- One attempted remote write, for observing which calls a backend
method performs. -/
structure HttpCall where
  path : String
  body : String
deriving DecidableEq, Repr

/-- `_writeToPath(url, body)`: `await fetch(url, {method: 'PUT', body})`.
A rejected fetch propagates; the response itself is discarded without
inspecting its status — a non-success response does not raise. -/
def _writeToPath (transport : Transport) (url : String) (body : String) :
    Except String Unit :=
  match transport url body with
  | Except.error e => Except.error e
  | Except.ok _ => Except.ok ()

/-- The argument record of `storeObject`. -/
structure BackupObject where
  collection : String
  pk : String
  object : Obj
deriving DecidableEq, Repr

/-- `storeObject`: one PUT to
`{collection}/{encodeURIComponent(encodeURIComponent(pk))}` with
`JSON.stringify(object)` as body.  The second component records the
write the method performs. -/
def storeObject (transport : Transport) (bo : BackupObject) :
    Except String Unit × List HttpCall :=
  let path := bo.collection ++ "/"
    ++ encodeURIComponent (encodeURIComponent bo.pk)
  let body := serializeObj bo.object
  (_writeToPath transport path body, [{ path := path, body := body }])

/-- `deleteObject`: throws `Error('Not yet implemented  :(')` before any
network activity; the transport is never consulted and the call trace is
empty. -/
def deleteObject (_transport : Transport) : Except String Unit × List HttpCall :=
  (Except.error "Not yet implemented  :(", [])

/-- `backupChanges`: classify, then PUT `change-sets/{timestamp}`; if that
write rejects the cycle aborts; otherwise, when `shouldWriteImages`
approves, PUT `images/{timestamp}` with the same timestamp.  `timestamp`
stands for the single `Date.now()` the source takes per invocation.  The
second component is the ordered list of writes attempted. -/
def backupChanges (enc : Value → Option Value) (transport : Transport)
    (unprocessedChanges : List ObjectChange) (currentSchemaVersion : Nat)
    (storeBlobs : Bool) (timestamp : Nat) :
    Except String Unit × List HttpCall :=
  let separated := separateDataFromImageChanges enc unprocessedChanges
  let csPath := "change-sets/" ++ toString timestamp
  let csBody := serializeChangeSet currentSchemaVersion separated.1
  match _writeToPath transport csPath csBody with
  | Except.error e => (Except.error e, [{ path := csPath, body := csBody }])
  | Except.ok _ =>
    if shouldWriteImages separated.2 storeBlobs then
      let imPath := "images/" ++ toString timestamp
      let imBody := serializeImages currentSchemaVersion separated.2
      match _writeToPath transport imPath imBody with
      | Except.error e =>
        (Except.error e,
         [{ path := csPath, body := csBody }, { path := imPath, body := imBody }])
      | Except.ok _ =>
        (Except.ok (),
         [{ path := csPath, body := csBody }, { path := imPath, body := imBody }])
    else (Except.ok (), [{ path := csPath, body := csBody }])

/-! ### Listing retrieval and parsing -/

/-- JS `body.split('\n')`. -/
def splitLinesAux : List Char → List Char → List String
  | [], acc => [String.mk acc.reverse]
  | c :: cs, acc =>
    if c = '\n' then String.mk acc.reverse :: splitLinesAux cs []
    else splitLinesAux cs (c :: acc)

def splitLines (s : String) : List String := splitLinesAux s.data []

/-- The six characters the regex literal begins with: `href="`. -/
def hrefPat : List Char := ['h', 'r', 'e', 'f', '=', '"']

/-- After `href="`, the capture group `([^"]+)` followed by `"`: the run
of non-quote characters before the next quote, provided it is non-empty
and a closing quote exists. -/
def captureAt (cs : List Char) : Option (List Char) :=
  let pre := cs.takeWhile fun c => !(c == '"')
  if pre.length != 0 && pre.length < cs.length then some pre else none

/-- `/href="([^"]+)"/.exec(line)` restricted to capture group 1: scan for
the leftmost position where the whole pattern matches; a position where
`href="` occurs but the capture fails (immediate closing quote, or no
closing quote at all) is skipped and the scan continues. -/
def execHrefAux : List Char → Option (List Char)
  | [] => none
  | c :: cs =>
    if (c :: cs).take 6 = hrefPat then
      match captureAt ((c :: cs).drop 6) with
      | some cap => some cap
      | none => execHrefAux cs
    else execHrefAux cs

def execHref (line : String) : Option String :=
  (execHrefAux line.data).map String.mk

/-- The parsing tail of `listObjects`: split into lines, run the regex on
each line, keep the matches, project the capture group. -/
def parseListing (body : String) : List String :=
  let lines := splitLines body
  let lineMatches := lines.map execHref
  (lineMatches.filter fun m => m.isSome).map fun m => m.getD ""

/-- `listObjects`: on a rejected fetch the error propagates; a 404 status
yields the empty listing; any other non-ok response throws
`Error(await response.text())`; an ok response is parsed. -/
def listObjects (fetchResult : Except String Response) :
    Except String (List String) :=
  match fetchResult with
  | Except.error e => Except.error e
  | Except.ok response =>
    if response.status == 404 then Except.ok []
    else if !(Response.ok response) then Except.error response.body
    else Except.ok (parseListing response.body)

example :
    parseListing "<a href=\"1234\">1234</a>\n<a href=\"5678\">5678</a>\nplain"
      = ["1234", "5678"] := by decide

/-! ### Helper lemmas -/

theorem objGet_objSet_self (o : Obj) (k : String) (v : Value) :
    objGet (objSet o k v) k = v := by
  induction o with
  | nil => simp [objSet, objGet]
  | cons kv rest ih =>
    by_cases h : kv.1 = k
    · simp [objSet, objGet, h]
    · simp [objSet, objGet, h, ih]

theorem objGet_objSet_ne (o : Obj) (k f : String) (v : Value) (h : f ≠ k) :
    objGet (objSet o k v) f = objGet o f := by
  induction o with
  | nil => simp [objSet, objGet, Ne.symm h]
  | cons kv rest ih =>
    obtain ⟨k0, v0⟩ := kv
    by_cases hk : k0 = k
    · subst hk
      simp [objSet, objGet, Ne.symm h]
    · simp [objSet, objGet, hk, ih]

theorem sep_fst_map (enc : Value → Option Value) (cs : List ObjectChange) :
    (separateDataFromImageChanges enc cs).1 = cs.map (prep1 enc) := by
  induction cs with
  | nil => rfl
  | cons c rest ih => simp [separateDataFromImageChanges, ih]

theorem sep_snd_join (enc : Value → Option Value) (cs : List ObjectChange) :
    (separateDataFromImageChanges enc cs).2
      = (cs.map (recordImages enc)).flatten := by
  induction cs with
  | nil => rfl
  | cons c rest ih => simp [separateDataFromImageChanges, ih]

theorem sep_append (enc : Value → Option Value)
    (xs ys : List ObjectChange) :
    separateDataFromImageChanges enc (xs ++ ys)
      = ((separateDataFromImageChanges enc xs).1
           ++ (separateDataFromImageChanges enc ys).1,
         (separateDataFromImageChanges enc xs).2
           ++ (separateDataFromImageChanges enc ys).2) := by
  induction xs with
  | nil => simp [separateDataFromImageChanges]
  | cons c rest ih => simp [separateDataFromImageChanges, ih]

/-- Classification of a "pages" record with a non-null screenshot:
the field is cleared unconditionally; the images object holds the
encoding exactly when encoding succeeded. -/
theorem prepare_pages (enc : Value → Option Value) (c : ObjectChange)
    (o : Obj) (hcoll : c.collection = "pages") (hobj : c.object = some o)
    (hss : isNonNull (objGet o "screenshot") = true) :
    _prepareBackupChangeForStorage enc c
      = ({ c with object := some (objSet o "screenshot" Value.undefined) },
         match enc (objGet o "screenshot") with
         | some e => [("screenshot", e)]
         | none => []) := by
  simp [_prepareBackupChangeForStorage, pagesStep, favIconsStep, hobj, hcoll, hss]

/-- Classification of a "favIcons" record with a non-null favicon:
replaced in place on success, untouched on failure; the images object
stays empty. -/
theorem prepare_favIcons (enc : Value → Option Value) (c : ObjectChange)
    (o : Obj) (hcoll : c.collection = "favIcons") (hobj : c.object = some o)
    (hfi : isNonNull (objGet o "favIcon") = true) :
    _prepareBackupChangeForStorage enc c
      = (match enc (objGet o "favIcon") with
         | some e => { c with object := some (objSet o "favIcon" e) }
         | none => c, []) := by
  cases henc : enc (objGet o "favIcon") with
  | some e =>
    simp [_prepareBackupChangeForStorage, pagesStep, favIconsStep,
      hobj, hcoll, hfi, henc]
  | none =>
    simp [_prepareBackupChangeForStorage, pagesStep, favIconsStep,
      hobj, hcoll, hfi, henc]

/-- Classification of a record with a null structured payload is the
identity and extracts nothing. -/
theorem prepare_object_none (enc : Value → Option Value) (c : ObjectChange)
    (h : c.object = none) :
    _prepareBackupChangeForStorage enc c = (c, []) := by
  simp [_prepareBackupChangeForStorage, pagesStep, favIconsStep, h]

/-- The pages block either leaves the record alone or clears its
screenshot field, nothing else. -/
theorem pagesStep_cases (enc : Value → Option Value) (c : ObjectChange) :
    (pagesStep enc c).1 = c
    ∨ ∃ o, c.object = some o
        ∧ (pagesStep enc c).1
            = { c with object := some (objSet o "screenshot" Value.undefined) } := by
  cases hobj : c.object with
  | none => left; simp [pagesStep, hobj]
  | some o =>
    by_cases hcond :
        (c.collection == "pages" && isNonNull (objGet o "screenshot")) = true
    · right
      exact ⟨o, rfl, by simp [pagesStep, hobj, hcond]⟩
    · left
      simp [pagesStep, hobj, hcond]

/-- The favIcons block either leaves the record alone or overwrites its
favIcon field with some value, nothing else. -/
theorem favIconsStep_cases (enc : Value → Option Value) (c : ObjectChange) :
    favIconsStep enc c = c
    ∨ ∃ o e, c.object = some o
        ∧ favIconsStep enc c = { c with object := some (objSet o "favIcon" e) } := by
  cases hobj : c.object with
  | none => left; simp [favIconsStep, hobj]
  | some o =>
    by_cases hcond :
        (c.collection == "favIcons" && isNonNull (objGet o "favIcon")) = true
    · cases henc : enc (objGet o "favIcon") with
      | some e =>
        right
        exact ⟨o, e, rfl, by simp [favIconsStep, hobj, hcond, henc]⟩
      | none => left; simp [favIconsStep, hobj, hcond, henc]
    · left
      simp [favIconsStep, hobj, hcond]

/-- Reading a payload field through an optional payload. -/
def optGet : Option Obj → String → Value
  | none, _ => Value.undefined
  | some o, f => objGet o f

/-- Classification touches, at most, the `screenshot` and `favIcon`
fields of a record's payload; every other observable part of the record
is preserved. -/
theorem prep1_preserves (enc : Value → Option Value) (c : ObjectChange) :
    (prep1 enc c).collection = c.collection
    ∧ (prep1 enc c).objectPk = c.objectPk
    ∧ (prep1 enc c).changeType = c.changeType
    ∧ (prep1 enc c).object.isSome = c.object.isSome
    ∧ ∀ f, f ≠ "screenshot" → f ≠ "favIcon" →
        optGet (prep1 enc c).object f = optGet c.object f := by
  have hprep : prep1 enc c = favIconsStep enc (pagesStep enc c).1 := rfl
  rcases favIconsStep_cases enc (pagesStep enc c).1 with hf | ⟨o1, e1, ho1, hf⟩ <;>
    rcases pagesStep_cases enc c with hp | ⟨o0, ho0, hp⟩
  · rw [hprep, hf, hp]
    exact ⟨rfl, rfl, rfl, rfl, fun f _ _ => rfl⟩
  · rw [hprep, hf, hp]
    refine ⟨rfl, rfl, rfl, by simp [ho0], fun f hfs _ => ?_⟩
    simp [optGet, ho0, objGet_objSet_ne o0 "screenshot" f Value.undefined hfs]
  · rw [hp] at ho1
    rw [hprep, hf, hp]
    refine ⟨rfl, rfl, rfl, by simp [ho1], fun f _ hff => ?_⟩
    simp [optGet, ho1, objGet_objSet_ne o1 "favIcon" f e1 hff]
  · have ho1' : objSet o0 "screenshot" Value.undefined = o1 := by
      rw [hp] at ho1; simpa using ho1
    subst ho1'
    rw [hprep, hf, hp]
    refine ⟨by simp, by simp, by simp, by simp [ho0], fun f hfs hff => ?_⟩
    have hget :
        objGet (objSet (objSet o0 "screenshot" Value.undefined) "favIcon" e1) f
          = objGet o0 f := by
      rw [objGet_objSet_ne _ "favIcon" f e1 hff,
        objGet_objSet_ne o0 "screenshot" f Value.undefined hfs]
    simp [optGet, ho0, hget]

/-- Filtering for present options then projecting equals `filterMap`. -/
theorem filterSome_getD {α β : Type} (f : α → Option β) (d : β) (l : List α) :
    (((l.map f).filter fun m => m.isSome).map fun m => m.getD d)
      = l.filterMap f := by
  induction l with
  | nil => rfl
  | cons a rest ih =>
    cases hfa : f a <;> simp [List.filterMap_cons, hfa, ih]

/-- A run of non-quote characters before an explicit quote is exactly
what the capture group's `takeWhile` keeps. -/
theorem takeWhile_no_quote (xs ys : List Char) (h : ∀ c ∈ xs, c ≠ '"') :
    (xs ++ '"' :: ys).takeWhile (fun c => !(c == '"')) = xs := by
  induction xs with
  | nil => simp [List.takeWhile]
  | cons a rest ih =>
    have ha : a ≠ '"' := h a (by simp)
    simp only [List.cons_append, List.takeWhile_cons]
    simp [ha, ih fun c hc => h c (by simp [hc])]

/-- The regex matches at an explicit `href="` anchor whose capture is a
non-empty quote-free run closed by a quote. -/
theorem execHrefAux_anchor (k suf : List Char) (hk1 : k ≠ [])
    (hk2 : ∀ c ∈ k, c ≠ '"') :
    execHrefAux
        ('<' :: 'a' :: ' ' :: 'h' :: 'r' :: 'e' :: 'f' :: '=' :: '"'
          :: (k ++ '"' :: suf))
      = some k := by
  have hk1' : k.length ≠ 0 := fun h => hk1 (List.length_eq_zero.mp h)
  have hcap : captureAt (k ++ '"' :: suf) = some k := by
    have ht := takeWhile_no_quote k suf hk2
    have hlen : k.length < (k ++ '"' :: suf).length := by
      simp [List.length_append]
    simp [captureAt, ht, hk1', hlen]
  show (match captureAt (k ++ '"' :: suf) with
        | some cap => some cap
        | none =>
          execHrefAux ('r' :: 'e' :: 'f' :: '=' :: '"' :: (k ++ '"' :: suf)))
      = some k
  rw [hcap]

/-- A line without any quote character can hold no `href="..."` token. -/
theorem execHrefAux_no_quote (l : List Char) (h : ∀ c ∈ l, c ≠ '"') :
    execHrefAux l = none := by
  induction l with
  | nil => rfl
  | cons a rest ih =>
    have hrec := ih fun c hc => h c (List.mem_cons_of_mem a hc)
    by_cases hp : (a :: rest).take 6 = hrefPat
    · exfalso
      have hmem : '"' ∈ (a :: rest).take 6 := by rw [hp]; simp [hrefPat]
      exact h '"' (List.take_subset 6 (a :: rest) hmem) rfl
    · simp only [execHrefAux]
      rw [if_neg hp, hrec]

/-! ### Concrete sample inputs -/

/-- A blob encoder sample: encodes string payloads, fails on anything else. -/
def sampleEnc : Value → Option Value
  | Value.vstr s => some (Value.vstr ("enc:" ++ s))
  | _ => none

/-- A blob encoder sample that always fails. -/
def failEnc : Value → Option Value := fun _ => none

def samplePagesObj : Obj :=
  [("url", Value.vstr "https://example.com"), ("screenshot", Value.vstr "shot")]

def samplePagesChange : ObjectChange :=
  { collection := "pages", objectPk := "pk1",
    object := some samplePagesObj, changeType := "create" }

def sampleFavIconObj : Obj := [("favIcon", Value.vstr "icon")]

def sampleFavIconChange : ObjectChange :=
  { collection := "favIcons", objectPk := "pk2",
    object := some sampleFavIconObj, changeType := "update" }

def sampleDeleteChange : ObjectChange :=
  { collection := "pages", objectPk := "pk3",
    object := none, changeType := "delete" }

/-- A transport on which every request resolves with status 200. -/
def okTransport : Transport := fun _ _ => Except.ok { status := 200, body := "" }

/-- A transport on which every request rejects. -/
def downTransport : Transport := fun _ _ => Except.error "network down"

/-! ### Claims -/

/-- Claim C1: for every change record in collection "pages" whose non-null
payload has a non-null `screenshot`, classification clears the
`screenshot` field of the record in the returned changes sequence in both
the encoding-success and encoding-failure outcomes, and, exactly when
encoding succeeds, contributes one ExtractedImage of type "screenshot"
with the record's pk and collection; the screenshot value is therefore
never in both outputs at once. -/
theorem C1_pages_screenshot_extraction (enc : Value → Option Value)
    (pre post : List ObjectChange) (c : ObjectChange) (o : Obj)
    (hcoll : c.collection = "pages") (hobj : c.object = some o)
    (hss : isNonNull (objGet o "screenshot") = true) :
    (separateDataFromImageChanges enc (pre ++ c :: post)).1
      = (separateDataFromImageChanges enc pre).1
        ++ ({ c with object := some (objSet o "screenshot" Value.undefined) }
             :: (separateDataFromImageChanges enc post).1)
    ∧ objGet (objSet o "screenshot" Value.undefined) "screenshot"
        = Value.undefined
    ∧ (separateDataFromImageChanges enc (pre ++ c :: post)).2
      = (separateDataFromImageChanges enc pre).2
        ++ ((match enc (objGet o "screenshot") with
             | some e => [{ collection := c.collection, pk := c.objectPk,
                            type := "screenshot", data := e }]
             | none => [])
            ++ (separateDataFromImageChanges enc post).2) := by
  have hprep := prepare_pages enc c o hcoll hobj hss
  refine ⟨?_, objGet_objSet_self o "screenshot" Value.undefined, ?_⟩
  · rw [sep_append]
    simp [separateDataFromImageChanges, prep1, hprep]
  · rw [sep_append]
    simp only [separateDataFromImageChanges, recordImages, hprep]
    cases enc (objGet o "screenshot") <;> simp

/-- Claim C1 witness at a concrete "pages" record and encoder. -/
theorem C1_pages_screenshot_extraction_witness :
    (separateDataFromImageChanges sampleEnc ([] ++ samplePagesChange :: [])).1
      = (separateDataFromImageChanges sampleEnc []).1
        ++ ({ samplePagesChange with
              object := some (objSet samplePagesObj "screenshot" Value.undefined) }
             :: (separateDataFromImageChanges sampleEnc []).1)
    ∧ objGet (objSet samplePagesObj "screenshot" Value.undefined) "screenshot"
        = Value.undefined
    ∧ (separateDataFromImageChanges sampleEnc ([] ++ samplePagesChange :: [])).2
      = (separateDataFromImageChanges sampleEnc []).2
        ++ ((match sampleEnc (objGet samplePagesObj "screenshot") with
             | some e => [{ collection := samplePagesChange.collection,
                            pk := samplePagesChange.objectPk,
                            type := "screenshot", data := e }]
             | none => [])
            ++ (separateDataFromImageChanges sampleEnc []).2) :=
  C1_pages_screenshot_extraction sampleEnc [] [] samplePagesChange samplePagesObj
    rfl rfl (by decide)

/-- Claim C4: for every change record in collection "favIcons" whose
non-null payload has a non-null `favIcon`, classification replaces the
field in place with the encoded value on success, leaves the record
entirely unchanged on failure, and contributes no ExtractedImage in
either outcome. -/
theorem C4_favicon_encoded_in_place (enc : Value → Option Value)
    (pre post : List ObjectChange) (c : ObjectChange) (o : Obj)
    (hcoll : c.collection = "favIcons") (hobj : c.object = some o)
    (hfi : isNonNull (objGet o "favIcon") = true) :
    (separateDataFromImageChanges enc (pre ++ c :: post)).1
      = (separateDataFromImageChanges enc pre).1
        ++ ((match enc (objGet o "favIcon") with
             | some e => { c with object := some (objSet o "favIcon" e) }
             | none => c)
             :: (separateDataFromImageChanges enc post).1)
    ∧ (∀ e, enc (objGet o "favIcon") = some e →
        objGet (objSet o "favIcon" e) "favIcon" = e)
    ∧ (separateDataFromImageChanges enc (pre ++ c :: post)).2
      = (separateDataFromImageChanges enc pre).2
        ++ (separateDataFromImageChanges enc post).2 := by
  have hprep := prepare_favIcons enc c o hcoll hobj hfi
  refine ⟨?_, fun e _ => objGet_objSet_self o "favIcon" e, ?_⟩
  · rw [sep_append]
    simp only [separateDataFromImageChanges, prep1, hprep]
  · rw [sep_append]
    simp only [separateDataFromImageChanges, recordImages, hprep]
    simp

/-- Claim C4 witness at a concrete "favIcons" record and encoder. -/
theorem C4_favicon_encoded_in_place_witness :
    (separateDataFromImageChanges sampleEnc ([] ++ sampleFavIconChange :: [])).1
      = (separateDataFromImageChanges sampleEnc []).1
        ++ ((match sampleEnc (objGet sampleFavIconObj "favIcon") with
             | some e => { sampleFavIconChange with
                           object := some (objSet sampleFavIconObj "favIcon" e) }
             | none => sampleFavIconChange)
             :: (separateDataFromImageChanges sampleEnc []).1)
    ∧ (∀ e, sampleEnc (objGet sampleFavIconObj "favIcon") = some e →
        objGet (objSet sampleFavIconObj "favIcon" e) "favIcon" = e)
    ∧ (separateDataFromImageChanges sampleEnc ([] ++ sampleFavIconChange :: [])).2
      = (separateDataFromImageChanges sampleEnc []).2
        ++ (separateDataFromImageChanges sampleEnc []).2 :=
  C4_favicon_encoded_in_place sampleEnc [] [] sampleFavIconChange sampleFavIconObj
    rfl rfl (by decide)

/-- Claim C9: `separateDataFromImageChanges` returns exactly the input
records in order — none dropped, added or reordered — and each output
record agrees with its input on collection, primary key, change type,
payload presence, and every payload field other than `screenshot` and
`favIcon`. -/
theorem C9_changes_sequence_preserved (enc : Value → Option Value)
    (changes : List ObjectChange) :
    (separateDataFromImageChanges enc changes).1 = changes.map (prep1 enc)
    ∧ ∀ c : ObjectChange,
        (prep1 enc c).collection = c.collection
        ∧ (prep1 enc c).objectPk = c.objectPk
        ∧ (prep1 enc c).changeType = c.changeType
        ∧ (prep1 enc c).object.isSome = c.object.isSome
        ∧ ∀ f, f ≠ "screenshot" → f ≠ "favIcon" →
            optGet (prep1 enc c).object f = optGet c.object f :=
  ⟨sep_fst_map enc changes, fun c => prep1_preserves enc c⟩

/-- Claim C9 witness at a concrete change list and record. -/
theorem C9_changes_sequence_preserved_witness :
    (separateDataFromImageChanges sampleEnc
        [samplePagesChange, sampleDeleteChange]).1
      = [samplePagesChange, sampleDeleteChange].map (prep1 sampleEnc)
    ∧ optGet (prep1 sampleEnc samplePagesChange).object "url"
        = optGet samplePagesChange.object "url" :=
  ⟨(C9_changes_sequence_preserved sampleEnc
      [samplePagesChange, sampleDeleteChange]).1,
   ((C9_changes_sequence_preserved sampleEnc
      [samplePagesChange, sampleDeleteChange]).2 samplePagesChange).2.2.2.2 "url"
     (by decide) (by decide)⟩

/-- Claim C10: a record whose structured payload is null is classified to
itself with no extracted images, whatever its collection — including
"pages" and "favIcons". -/
theorem C10_null_payload_noop (enc : Value → Option Value) (c : ObjectChange)
    (h : c.object = none) :
    _prepareBackupChangeForStorage enc c = (c, [])
    ∧ prep1 enc c = c
    ∧ recordImages enc c = [] := by
  have hp := prepare_object_none enc c h
  exact ⟨hp, by simp [prep1, hp], by simp [recordImages, hp]⟩

/-- Claim C10 witness at a concrete delete record in collection "pages". -/
theorem C10_null_payload_noop_witness :
    _prepareBackupChangeForStorage sampleEnc sampleDeleteChange
        = (sampleDeleteChange, [])
    ∧ prep1 sampleEnc sampleDeleteChange = sampleDeleteChange
    ∧ recordImages sampleEnc sampleDeleteChange = [] :=
  C10_null_payload_noop sampleEnc sampleDeleteChange rfl

/-- The batch policy gate, as a proposition. -/
theorem shouldWriteImages_iff (images : List ExtractedImage) (sb : Bool) :
    shouldWriteImages images sb = true ↔ (sb = true ∧ images ≠ []) := by
  simp [shouldWriteImages, List.length_eq_zero]

/-- Claim C2: one invocation of backupChanges writes exactly one changes
object to `change-sets/{t}`, and writes `images/{t}` — with the identical
timestamp, after the change-sets write — if and only if `storeBlobs` is
true and the extracted images are non-empty; no other writes occur
(stated under a transport on which every request resolves). -/
theorem C2_backup_write_discipline (enc : Value → Option Value)
    (transport : Transport) (changes : List ObjectChange)
    (version : Nat) (storeBlobs : Bool) (t : Nat)
    (htr : ∀ p b, ∃ r, transport p b = Except.ok r) :
    backupChanges enc transport changes version storeBlobs t
      = (Except.ok (),
         { path := "change-sets/" ++ toString t,
           body := serializeChangeSet version
             (separateDataFromImageChanges enc changes).1 }
         :: (if shouldWriteImages (separateDataFromImageChanges enc changes).2
                storeBlobs
             then [{ path := "images/" ++ toString t,
                     body := serializeImages version
                       (separateDataFromImageChanges enc changes).2 }]
             else []))
    ∧ (shouldWriteImages (separateDataFromImageChanges enc changes).2 storeBlobs
          = true
        ↔ (storeBlobs = true ∧ (separateDataFromImageChanges enc changes).2 ≠ [])) := by
  obtain ⟨r1, hr1⟩ := htr ("change-sets/" ++ toString t)
    (serializeChangeSet version (separateDataFromImageChanges enc changes).1)
  obtain ⟨r2, hr2⟩ := htr ("images/" ++ toString t)
    (serializeImages version (separateDataFromImageChanges enc changes).2)
  have hw1 : _writeToPath transport ("change-sets/" ++ toString t)
      (serializeChangeSet version (separateDataFromImageChanges enc changes).1)
      = Except.ok () := by simp [_writeToPath, hr1]
  have hw2 : _writeToPath transport ("images/" ++ toString t)
      (serializeImages version (separateDataFromImageChanges enc changes).2)
      = Except.ok () := by simp [_writeToPath, hr2]
  refine ⟨?_, shouldWriteImages_iff _ _⟩
  by_cases hsw : shouldWriteImages (separateDataFromImageChanges enc changes).2
      storeBlobs = true
  · simp only [backupChanges, hw1, hw2, hsw, if_true]
  · rw [Bool.not_eq_true] at hsw
    simp only [backupChanges, hw1, hsw, Bool.false_eq_true, if_false]

/-- Claim C2 witness: a concrete run with blobs enabled and one
extractable image produces both writes under the same timestamp. -/
theorem C2_backup_write_discipline_witness :
    backupChanges sampleEnc okTransport [samplePagesChange] 7 true 123
      = (Except.ok (),
         { path := "change-sets/" ++ toString 123,
           body := serializeChangeSet 7
             (separateDataFromImageChanges sampleEnc [samplePagesChange]).1 }
         :: (if shouldWriteImages
                (separateDataFromImageChanges sampleEnc [samplePagesChange]).2 true
             then [{ path := "images/" ++ toString 123,
                     body := serializeImages 7
                       (separateDataFromImageChanges sampleEnc [samplePagesChange]).2 }]
             else []))
    ∧ (shouldWriteImages
          (separateDataFromImageChanges sampleEnc [samplePagesChange]).2 true = true
        ↔ (true = true
           ∧ (separateDataFromImageChanges sampleEnc [samplePagesChange]).2 ≠ [])) :=
  C2_backup_write_discipline sampleEnc okTransport [samplePagesChange] 7 true 123
    (fun _ _ => ⟨{ status := 200, body := "" }, rfl⟩)

def sampleBackupObject : BackupObject :=
  { collection := "customLists", pk := "list one",
    object := [("name", Value.vstr "reading list")] }

/-- Claim C3 counterexample: a store write answered by the remote server
with HTTP 500 — a non-success response — resolves successfully instead of
surfacing an error, refuting the claim for this input. -/
theorem C3_counterexample_status_ignored :
    (storeObject (fun _ _ => Except.ok { status := 500, body := "internal error" })
        sampleBackupObject).1 = Except.ok ()
    ∧ Response.ok { status := 500, body := "internal error" } = false :=
  ⟨rfl, rfl⟩

/-- Claim C3 (amended): a rejected fetch — a network-level transport
failure — surfaces to the caller of a store write, and inside
backupChanges a rejected changes-object write aborts the cycle with only
that single write attempted, so an images-only batch is never produced;
a non-success HTTP response to a store write, however, is ignored. -/
theorem C3_rejection_aborts_cycle (enc : Value → Option Value)
    (transport : Transport) (changes : List ObjectChange)
    (version t : Nat) (storeBlobs : Bool) (p b e : String) :
    (transport p b = Except.error e →
      _writeToPath transport p b = Except.error e)
    ∧ (transport ("change-sets/" ++ toString t)
          (serializeChangeSet version (separateDataFromImageChanges enc changes).1)
        = Except.error e →
      backupChanges enc transport changes version storeBlobs t
        = (Except.error e,
           [{ path := "change-sets/" ++ toString t,
              body := serializeChangeSet version
                (separateDataFromImageChanges enc changes).1 }])) := by
  constructor
  · intro h
    simp [_writeToPath, h]
  · intro h
    simp [backupChanges, _writeToPath, h]

/-- Claim C3 (amended) witness: with every request rejecting, the cycle
aborts after the single change-sets write attempt. -/
theorem C3_rejection_aborts_cycle_witness :
    _writeToPath downTransport "p" "b" = Except.error "network down"
    ∧ backupChanges sampleEnc downTransport [samplePagesChange] 7 true 123
        = (Except.error "network down",
           [{ path := "change-sets/" ++ toString 123,
              body := serializeChangeSet 7
                (separateDataFromImageChanges sampleEnc [samplePagesChange]).1 }]) :=
  ⟨(C3_rejection_aborts_cycle sampleEnc downTransport [samplePagesChange] 7 123
      true "p" "b" "network down").1 rfl,
   (C3_rejection_aborts_cycle sampleEnc downTransport [samplePagesChange] 7 123
      true "p" "b" "network down").2 rfl⟩

/-- Claim C7: deleteObject always fails with the "not implemented" error,
never consulting the transport — its attempted-call trace is empty. -/
theorem C7_delete_not_implemented (transport : Transport) :
    deleteObject transport = (Except.error "Not yet implemented  :(", []) := rfl

/-- Claim C7 witness at a concrete transport. -/
theorem C7_delete_not_implemented_witness :
    deleteObject okTransport = (Except.error "Not yet implemented  :(", []) :=
  C7_delete_not_implemented okTransport

/-- Claim C8: storeObject writes to `{collection}/{key}` where the key is
the primary key percent-encoded twice, with the serialized object as the
body; on a key with a separator and a space the double encoding is
visible (`a/b c` ↦ `a%252Fb%2520c`). -/
theorem C8_store_path_double_encoded (transport : Transport)
    (bo : BackupObject) :
    storeObject transport bo
      = (_writeToPath transport
           (bo.collection ++ "/" ++ encodeURIComponent (encodeURIComponent bo.pk))
           (serializeObj bo.object),
         [{ path := bo.collection ++ "/"
              ++ encodeURIComponent (encodeURIComponent bo.pk),
            body := serializeObj bo.object }])
    ∧ encodeURIComponent (encodeURIComponent "a/b c") = "a%252Fb%2520c" :=
  ⟨rfl, by decide⟩

/-- Claim C8 witness at a concrete object whose key needs encoding. -/
theorem C8_store_path_double_encoded_witness :
    storeObject okTransport sampleBackupObject
      = (_writeToPath okTransport
           (sampleBackupObject.collection ++ "/"
             ++ encodeURIComponent (encodeURIComponent sampleBackupObject.pk))
           (serializeObj sampleBackupObject.object),
         [{ path := sampleBackupObject.collection ++ "/"
              ++ encodeURIComponent (encodeURIComponent sampleBackupObject.pk),
            body := serializeObj sampleBackupObject.object }])
    ∧ encodeURIComponent (encodeURIComponent "a/b c") = "a%252Fb%2520c" :=
  C8_store_path_double_encoded okTransport sampleBackupObject

/-- Claim C5: listObjects returns the empty sequence on a 404 response,
fails with the response body as the error message on any other non-ok
response, and returns the parsed key sequence on an ok response. -/
theorem C5_list_status_handling (b : String) (r : Response) :
    listObjects (Except.ok { status := 404, body := b }) = Except.ok []
    ∧ (r.status ≠ 404 → Response.ok r = false →
        listObjects (Except.ok r) = Except.error r.body)
    ∧ (Response.ok r = true →
        listObjects (Except.ok r) = Except.ok (parseListing r.body)) := by
  refine ⟨by simp [listObjects], fun h404 hok => ?_, fun hok => ?_⟩
  · simp [listObjects, h404, hok]
  · have h404 : r.status ≠ 404 := by
      have h := hok
      simp [Response.ok, Bool.and_eq_true] at h
      omega
    simp [listObjects, h404, hok]

/-- Claim C5 witness: concrete 404, 500 and 200 responses. -/
theorem C5_list_status_handling_witness :
    listObjects (Except.ok { status := 404, body := "ignored" }) = Except.ok []
    ∧ listObjects (Except.ok { status := 500, body := "oops" })
        = Except.error "oops"
    ∧ listObjects (Except.ok { status := 200, body := "<a href=\"1\">1</a>" })
        = Except.ok (parseListing "<a href=\"1\">1</a>") :=
  ⟨(C5_list_status_handling "ignored" { status := 500, body := "oops" }).1,
   (C5_list_status_handling "ignored" { status := 500, body := "oops" }).2.1
     (by decide) (by decide),
   (C5_list_status_handling "ignored"
      { status := 200, body := "<a href=\"1\">1</a>" }).2.2 (by decide)⟩

/-- Claim C6: listing parsing splits the body into lines, extracts from
each line the value of the first `href="..."` token, discards lines
without one (e.g. quote-free lines), keeps the keys in line order, and
does not deduplicate repeated keys. -/
theorem C6_parse_listing_per_line (body k suf line : String)
    (hk1 : k.data ≠ []) (hk2 : ∀ c ∈ k.data, c ≠ '"')
    (hline : ∀ c ∈ line.data, c ≠ '"') :
    parseListing body = (splitLines body).filterMap execHref
    ∧ execHref ("<a href=\"" ++ k ++ ("\"" ++ suf)) = some k
    ∧ execHref line = none
    ∧ parseListing
        "<a href=\"1234\">1234</a>\n<a href=\"5678\">5678</a>\nno link here"
        = ["1234", "5678"]
    ∧ parseListing "<a href=\"dup\">x</a>\n<a href=\"dup\">y</a>"
        = ["dup", "dup"] := by
  refine ⟨?_, ?_, ?_, by decide, by decide⟩
  · simp only [parseListing]
    exact filterSome_getD execHref "" (splitLines body)
  · show (execHrefAux ("<a href=\"" ++ k ++ ("\"" ++ suf)).data).map String.mk
        = some k
    have hdata : ("<a href=\"" ++ k ++ ("\"" ++ suf)).data
        = '<' :: 'a' :: ' ' :: 'h' :: 'r' :: 'e' :: 'f' :: '=' :: '"'
            :: (k.data ++ '"' :: suf.data) := by
      simp [String.data_append]
    rw [hdata, execHrefAux_anchor k.data suf.data hk1 hk2]
    cases k
    rfl
  · show (execHrefAux line.data).map String.mk = none
    rw [execHrefAux_no_quote line.data hline]
    rfl

/-- Claim C6 witness: a concrete anchored line and a concrete quote-free
line. -/
theorem C6_parse_listing_per_line_witness :
    parseListing "x" = (splitLines "x").filterMap execHref
    ∧ execHref ("<a href=\"" ++ "1234" ++ ("\"" ++ ">1234</a>")) = some "1234"
    ∧ execHref "no link here" = none :=
  ⟨(C6_parse_listing_per_line "x" "1234" ">1234</a>" "no link here"
      (by decide) (by decide) (by decide)).1,
   (C6_parse_listing_per_line "x" "1234" ">1234</a>" "no link here"
      (by decide) (by decide) (by decide)).2.1,
   (C6_parse_listing_per_line "x" "1234" ">1234</a>" "no link here"
      (by decide) (by decide) (by decide)).2.2.1⟩
